import Mathlib

/-!
Verification of the computational core of `hedge_dashboard_v2.py`.

The Python source is shallowly embedded:
* the Black-model option pricer `black_price` (source lines 143-161) over `ℝ`,
  with `scipy.stats.norm.cdf` embedded as the integral of the standard normal
  density (Mathlib's `gaussianPDFReal 0 1`) over `(-∞, x]`;
* the position-table aggregation of the "Update Position Data" handler
  (source lines 450-488) and the funding-plan calculation of the
  "Calculate Plan" handler (source lines 860-901) over exact rationals `ℚ`
  (the Python floats idealised as exact arithmetic), which keeps those
  definitions executable.
-/

set_option maxHeartbeats 1000000

open MeasureTheory ProbabilityTheory

namespace HedgeDashboard

/-- `EPSILON = 1e-10` (source line 76). -/
def EPSILON : ℝ := 1e-10

/-- The standard normal cumulative distribution function (`norm.cdf`):
the integral of the standard normal density over `(-∞, x]`. -/
noncomputable def normCdf (x : ℝ) : ℝ :=
  ∫ t in Set.Iic x, gaussianPDFReal 0 1 t

/-- `d1` as computed inside `black_price` (source line 149):
`(np.log(S / K) + (0.5 * sigma ** 2) * T) / (sigma * np.sqrt(T))`. -/
noncomputable def black_d1 (S K T sigma : ℝ) : ℝ :=
  (Real.log (S / K) + (0.5 * sigma ^ 2) * T) / (sigma * Real.sqrt T)

/-- `d2 = d1 - sigma * np.sqrt(T)` (source line 150). -/
noncomputable def black_d2 (S K T sigma : ℝ) : ℝ :=
  black_d1 S K T sigma - sigma * Real.sqrt T

/-- `black_price(S, K, T, r, sigma, option_type)` (source lines 143-161).
Returns the pair `(price, delta)`.  The degenerate guard
`if T <= EPSILON or sigma <= EPSILON: return 0.0, 0.0` comes first; otherwise
the branch on `option_type == "Call"` selects the call formulas, and any other
string falls into the `else` (Put) branch, exactly as in the source. -/
noncomputable def black_price (S K T r sigma : ℝ) (option_type : String) : ℝ × ℝ :=
  if T ≤ EPSILON ∨ sigma ≤ EPSILON then (0.0, 0.0)
  else if option_type = "Call" then
    (S * normCdf (black_d1 S K T sigma)
       - K * Real.exp (-r * T) * normCdf (black_d2 S K T sigma),
     normCdf (black_d1 S K T sigma))
  else
    (K * Real.exp (-r * T) * normCdf (-(black_d2 S K T sigma))
       - S * normCdf (-(black_d1 S K T sigma)),
     -normCdf (-(black_d1 S K T sigma)))

/-! Spec-side Black formulas, written from the spec's own equations
(`d1 = (ln(S/K) + 0.5*sigma^2*T) / (sigma*sqrt(T))`, `d2 = d1 - sigma*sqrt(T)`,
call price `S*N(d1) - K*exp(-r*T)*N(d2)` with delta `N(d1)`, put price
`K*exp(-r*T)*N(-d2) - S*N(-d1)` with delta `-N(-d1)`), used to state the
refinement claim C1 against the source definition above. -/

noncomputable def spec_d1 (S K T sigma : ℝ) : ℝ :=
  (Real.log (S / K) + 0.5 * sigma ^ 2 * T) / (sigma * Real.sqrt T)

noncomputable def spec_d2 (S K T sigma : ℝ) : ℝ :=
  spec_d1 S K T sigma - sigma * Real.sqrt T

noncomputable def spec_call_price (S K T r sigma : ℝ) : ℝ :=
  S * normCdf (spec_d1 S K T sigma)
    - K * Real.exp (-r * T) * normCdf (spec_d2 S K T sigma)

noncomputable def spec_call_delta (S K T sigma : ℝ) : ℝ :=
  normCdf (spec_d1 S K T sigma)

noncomputable def spec_put_price (S K T r sigma : ℝ) : ℝ :=
  K * Real.exp (-r * T) * normCdf (-spec_d2 S K T sigma)
    - S * normCdf (-spec_d1 S K T sigma)

noncomputable def spec_put_delta (S K T sigma : ℝ) : ℝ :=
  -normCdf (-spec_d1 S K T sigma)

/-! ### Claims C2, C9, C10: branch structure of `black_price` -/

/-- C2: whenever `T <= EPSILON` or `sigma <= EPSILON`, the pricer returns
exactly `(0.0, 0.0)` for every input, for both option kinds; the embedding is
a total function, so no exception is possible on this path. -/
theorem C2_degenerate_returns_zero (S K T r sigma : ℝ) (option_type : String)
    (h : T ≤ EPSILON ∨ sigma ≤ EPSILON) :
    black_price S K T r sigma option_type = (0, 0) := by
  unfold black_price
  rw [if_pos h]
  norm_num

/-- Witness for C2 at the concrete degenerate input `T = 0`. -/
theorem C2_degenerate_returns_zero_witness :
    ((0 : ℝ) ≤ EPSILON ∨ (1 : ℝ) ≤ EPSILON) ∧
      black_price 100 100 0 0.05 1 "Call" = (0, 0) :=
  ⟨Or.inl (by norm_num [EPSILON]),
   C2_degenerate_returns_zero 100 100 0 0.05 1 "Call"
     (Or.inl (by norm_num [EPSILON]))⟩

/-- C10: the `kind` parameter is not validated: under `T > EPSILON` and
`sigma > EPSILON`, every `option_type` other than the exact string `"Call"`
is priced with the Put formulas, so it agrees with `option_type = "Put"`. -/
theorem C10_non_call_means_put (S K T r sigma : ℝ) (option_type : String)
    (hx : option_type ≠ "Call") (hT : EPSILON < T) (hs : EPSILON < sigma) :
    black_price S K T r sigma option_type = black_price S K T r sigma "Put" := by
  unfold black_price
  have hcond : ¬(T ≤ EPSILON ∨ sigma ≤ EPSILON) := by
    push_neg
    exact ⟨hT, hs⟩
  rw [if_neg hcond, if_neg hcond, if_neg hx, if_neg (by decide : ¬("Put" = "Call"))]

/-- Witness for C10 at the concrete misspelling `"put"`. -/
theorem C10_non_call_means_put_witness :
    ("put" ≠ "Call") ∧ EPSILON < (1 : ℝ) ∧ EPSILON < (0.2 : ℝ) ∧
      black_price 100 90 1 0.05 0.2 "put" = black_price 100 90 1 0.05 0.2 "Put" :=
  ⟨by decide, by norm_num [EPSILON], by norm_num [EPSILON],
   C10_non_call_means_put 100 90 1 0.05 0.2 "put" (by decide)
     (by norm_num [EPSILON]) (by norm_num [EPSILON])⟩

/-- Counterexample to C9: at the invalid input `T = -1 < 0` the pricer does
not reject; it silently returns the numeric result `(0.0, 0.0)`
(the `T <= EPSILON` clamp swallows negative expiries). -/
theorem C9_counterexample_no_rejection :
    black_price 100 100 (-1) 0.05 0.2 "Call" = (0, 0) := by
  unfold black_price
  rw [if_pos (Or.inl (by norm_num [EPSILON]))]
  norm_num

/-- C9 amended: the core performs no input validation; every input with
`T < 0` (an invalid expiry per the spec's preconditions) is absorbed by the
degenerate clamp and yields the numeric result `(0.0, 0.0)` instead of an
error. -/
theorem C9_amended_negative_T_clamped (S K T r sigma : ℝ) (option_type : String)
    (hT : T < 0) :
    black_price S K T r sigma option_type = (0, 0) := by
  unfold black_price
  rw [if_pos (Or.inl (le_trans hT.le (by norm_num [EPSILON])))]
  norm_num

/-- Witness for the amended C9 at the concrete input `T = -1`. -/
theorem C9_amended_negative_T_clamped_witness :
    ((-1 : ℝ) < 0) ∧ black_price 50 60 (-1) 0 0.3 "Put" = (0, 0) :=
  ⟨by norm_num, C9_amended_negative_T_clamped 50 60 (-1) 0 0.3 "Put" (by norm_num)⟩

/-! ### Properties of the standard normal CDF used by the pricer claims -/

/-- The standard normal density is even. -/
lemma gaussianPDFReal_std_neg (x : ℝ) :
    gaussianPDFReal 0 1 (-x) = gaussianPDFReal 0 1 x := by
  simp [gaussianPDFReal, neg_sq]

/-- `normCdf` is nonnegative. -/
lemma normCdf_nonneg (x : ℝ) : 0 ≤ normCdf x :=
  setIntegral_nonneg measurableSet_Iic fun t _ => gaussianPDFReal_nonneg 0 1 t

/-- `normCdf` is bounded by the total mass `1` of the density. -/
lemma normCdf_le_one (x : ℝ) : normCdf x ≤ 1 := by
  have h1 : normCdf x ≤ ∫ t, gaussianPDFReal 0 1 t :=
    setIntegral_le_integral (integrable_gaussianPDFReal 0 1)
      (ae_of_all _ fun t => gaussianPDFReal_nonneg 0 1 t)
  calc normCdf x ≤ ∫ t, gaussianPDFReal 0 1 t := h1
    _ = 1 := integral_gaussianPDFReal_eq_one 0 one_ne_zero

/-- By symmetry of the standard normal density, `normCdf 0 = 1/2`. -/
lemma normCdf_zero : normCdf 0 = 1 / 2 := by
  have hsplit : normCdf 0 + ∫ t in Set.Ioi (0 : ℝ), gaussianPDFReal 0 1 t = 1 := by
    rw [normCdf, ← Set.compl_Iic,
      integral_add_compl measurableSet_Iic (integrable_gaussianPDFReal 0 1)]
    exact integral_gaussianPDFReal_eq_one 0 one_ne_zero
  have hsym : ∫ t in Set.Ioi (0 : ℝ), gaussianPDFReal 0 1 t = normCdf 0 := by
    have h1 := integral_comp_neg_Ioi (0 : ℝ) (gaussianPDFReal 0 1)
    simp only [gaussianPDFReal_std_neg, neg_zero] at h1
    rw [normCdf]
    exact h1
  rw [hsym] at hsplit
  linarith

/-! ### Claim C1: the pricer computes exactly the spec's Black formulas -/

/-- C1: under `S, K > 0`, `T > EPSILON`, `sigma > EPSILON`, `black_price`
returns exactly the Black futures-option values stated in the spec, for both
the Call and the Put kind. -/
theorem C1_black_price_matches_spec (S K T r sigma : ℝ)
    (hS : 0 < S) (hK : 0 < K) (hT : EPSILON < T) (hs : EPSILON < sigma) :
    black_price S K T r sigma "Call"
        = (spec_call_price S K T r sigma, spec_call_delta S K T sigma) ∧
      black_price S K T r sigma "Put"
        = (spec_put_price S K T r sigma, spec_put_delta S K T sigma) := by
  have hcond : ¬(T ≤ EPSILON ∨ sigma ≤ EPSILON) := by
    push_neg
    exact ⟨hT, hs⟩
  have hd1 : black_d1 S K T sigma = spec_d1 S K T sigma := rfl
  have hd2 : black_d2 S K T sigma = spec_d2 S K T sigma := rfl
  constructor
  · unfold black_price
    rw [if_neg hcond, if_pos rfl]
    unfold spec_call_price spec_call_delta
    rw [hd1, hd2]
  · unfold black_price
    rw [if_neg hcond, if_neg (by decide : ¬("Put" = "Call"))]
    unfold spec_put_price spec_put_delta
    rw [hd1, hd2]

/-- Witness for C1 at the concrete input `S=100, K=100, T=1, r=0.05,
sigma=0.2`. -/
theorem C1_black_price_matches_spec_witness :
    ((0 : ℝ) < 100) ∧ EPSILON < (1 : ℝ) ∧ EPSILON < (0.2 : ℝ) ∧
      (black_price 100 100 1 0.05 0.2 "Call"
          = (spec_call_price 100 100 1 0.05 0.2, spec_call_delta 100 100 1 0.2) ∧
        black_price 100 100 1 0.05 0.2 "Put"
          = (spec_put_price 100 100 1 0.05 0.2, spec_put_delta 100 100 1 0.2)) :=
  ⟨by norm_num, by norm_num [EPSILON], by norm_num [EPSILON],
   C1_black_price_matches_spec 100 100 1 0.05 0.2 (by norm_num) (by norm_num)
     (by norm_num [EPSILON]) (by norm_num [EPSILON])⟩

/-! ### Claim C3: at-the-money zero-rate put-call parity -/

/-- C3: for `S = K > 0`, `r = 0`, `T > EPSILON`, `sigma > EPSILON`, the call
price and the put price returned by the pricer are equal. -/
theorem C3_atm_zero_rate_parity (S T sigma : ℝ)
    (hS : 0 < S) (hT : EPSILON < T) (hs : EPSILON < sigma) :
    (black_price S S T 0 sigma "Call").1 = (black_price S S T 0 sigma "Put").1 := by
  have hT0 : (0 : ℝ) < T := lt_trans (by norm_num [EPSILON]) hT
  have hs0 : (0 : ℝ) < sigma := lt_trans (by norm_num [EPSILON]) hs
  have hrt : (0 : ℝ) < Real.sqrt T := Real.sqrt_pos.mpr hT0
  have hcond : ¬(T ≤ EPSILON ∨ sigma ≤ EPSILON) := by
    push_neg
    exact ⟨hT, hs⟩
  have hsq : Real.sqrt T ^ 2 = T := Real.sq_sqrt hT0.le
  have hd1 : black_d1 S S T sigma = sigma * Real.sqrt T / 2 := by
    unfold black_d1
    rw [div_self hS.ne', Real.log_one, zero_add,
      div_eq_div_iff (mul_ne_zero hs0.ne' hrt.ne') (by norm_num : (2 : ℝ) ≠ 0)]
    linear_combination (-(sigma ^ 2)) * hsq
  have hd2 : black_d2 S S T sigma = -(sigma * Real.sqrt T / 2) := by
    unfold black_d2
    rw [hd1]
    ring
  unfold black_price
  rw [if_neg hcond, if_pos rfl, if_neg hcond,
    if_neg (by decide : ¬("Put" = "Call"))]
  show S * normCdf (black_d1 S S T sigma)
      - S * Real.exp (-0 * T) * normCdf (black_d2 S S T sigma)
    = S * Real.exp (-0 * T) * normCdf (-(black_d2 S S T sigma))
      - S * normCdf (-(black_d1 S S T sigma))
  rw [hd1, hd2, neg_neg]
  simp only [neg_zero, zero_mul, Real.exp_zero, mul_one, one_mul]

/-- Witness for C3 at the concrete input `S = K = 100, T = 1, sigma = 0.2`. -/
theorem C3_atm_zero_rate_parity_witness :
    ((0 : ℝ) < 100) ∧ EPSILON < (1 : ℝ) ∧ EPSILON < (0.2 : ℝ) ∧
      (black_price 100 100 1 0 0.2 "Call").1 = (black_price 100 100 1 0 0.2 "Put").1 :=
  ⟨by norm_num, by norm_num [EPSILON], by norm_num [EPSILON],
   C3_atm_zero_rate_parity 100 1 0.2 (by norm_num) (by norm_num [EPSILON])
     (by norm_num [EPSILON])⟩

/-! ### Claim C4: output ranges of the pricer -/

/-- Counterexample to C4: at `S = 2 > 0`, `K = 1 > 0`, `T = 1 ≥ 0`, `r = -2`
(a real rate, as the claim permits) and `sigma = √(2 ln 2) ≥ 0`, the price
returned for a Call is strictly negative, refuting `price ≥ 0`.
(Here `d2 = 0`, so the price is `2·N(d1) - e²·N(0) ≤ 2 - e²/2 < 0`.) -/
theorem C4_counterexample_negative_price :
    (black_price 2 1 1 (-2) (Real.sqrt (2 * Real.log 2)) "Call").1 < 0 := by
  set s : ℝ := Real.sqrt (2 * Real.log 2) with hsdef
  have hlog : (0.6931471803 : ℝ) < Real.log 2 := Real.log_two_gt_d9
  have h2l : (1 : ℝ) < 2 * Real.log 2 := by linarith
  have hspos : 0 < s := Real.sqrt_pos.mpr (by linarith)
  have hssq : s ^ 2 = 2 * Real.log 2 := Real.sq_sqrt (by linarith)
  have hs1 : 1 < s := by nlinarith [hssq, hspos]
  have hcond : ¬((1 : ℝ) ≤ EPSILON ∨ s ≤ EPSILON) := by
    push_neg
    refine ⟨by norm_num [EPSILON], ?_⟩
    have : EPSILON < 1 := by norm_num [EPSILON]
    linarith
  have h21 : (2 : ℝ) / 1 = 2 := by norm_num
  have hd1 : black_d1 2 1 1 s = s := by
    unfold black_d1
    rw [Real.sqrt_one, h21, div_eq_iff (mul_ne_zero hspos.ne' one_ne_zero)]
    linear_combination (-1 / 2 : ℝ) * hssq
  have hd2 : black_d2 2 1 1 s = 0 := by
    unfold black_d2
    rw [hd1, Real.sqrt_one]
    ring
  unfold black_price
  rw [if_neg hcond, if_pos rfl]
  show 2 * normCdf (black_d1 2 1 1 s)
      - 1 * Real.exp (-(-2) * 1) * normCdf (black_d2 2 1 1 s) < 0
  rw [hd1, hd2, normCdf_zero, (by norm_num : (-(-2) : ℝ) * 1 = 2)]
  have hcdf : normCdf s ≤ 1 := normCdf_le_one s
  have hexp : (7 : ℝ) < Real.exp 2 := by
    have h1 : (2.7182818283 : ℝ) < Real.exp 1 := Real.exp_one_gt_d9
    have h2 : Real.exp (2 : ℝ) = Real.exp 1 * Real.exp 1 := by
      rw [← Real.exp_add]
      norm_num
    rw [h2]
    nlinarith [h1]
  linarith

/-- C4 amended: the delta returned by the pricer always lies in `[-1, 1]`
(for every input, in both the degenerate and the priced branch); the price,
however, is not guaranteed nonnegative for arbitrary real `r`. -/
theorem C4_amended_delta_in_unit_interval (S K T r sigma : ℝ) (option_type : String) :
    -1 ≤ (black_price S K T r sigma option_type).2 ∧
      (black_price S K T r sigma option_type).2 ≤ 1 := by
  unfold black_price
  by_cases hcond : T ≤ EPSILON ∨ sigma ≤ EPSILON
  · rw [if_pos hcond]
    norm_num
  · rw [if_neg hcond]
    by_cases hc : option_type = "Call"
    · rw [if_pos hc]
      have h1 := normCdf_nonneg (black_d1 S K T sigma)
      have h2 := normCdf_le_one (black_d1 S K T sigma)
      refine ⟨?_, ?_⟩
      · show (-1 : ℝ) ≤ normCdf (black_d1 S K T sigma)
        linarith
      · show normCdf (black_d1 S K T sigma) ≤ 1
        exact h2
    · rw [if_neg hc]
      have h1 := normCdf_nonneg (-(black_d1 S K T sigma))
      have h2 := normCdf_le_one (-(black_d1 S K T sigma))
      refine ⟨?_, ?_⟩
      · show (-1 : ℝ) ≤ -normCdf (-(black_d1 S K T sigma))
        linarith
      · show -normCdf (-(black_d1 S K T sigma)) ≤ 1
        linarith

/-! ### Position table aggregation (tab1 "Update Position Data", source
lines 450-488), over exact rationals -/

/-- One editable row of the position table, with the columns of the
source's data editor. -/
structure PositionRow where
  account : String
  tons : ℚ
  holdingPrice : ℚ
  balanceFunds : ℚ
  openPositionLimit : ℚ
  variableMargin : ℚ
  initialMargin : ℚ
  unrealizedPnL : ℚ

/-- `total_tons = edited_df['Tons'].sum()` (source line 452). -/
def total_tons (rows : List PositionRow) : ℚ :=
  (rows.map PositionRow.tons).sum

/-- `total_value = (edited_df['Tons'] * edited_df['Holding Price']).sum()`
(source line 455). -/
def total_value (rows : List PositionRow) : ℚ :=
  (rows.map fun row => row.tons * row.holdingPrice).sum

/-- `total_avg_price` (source lines 454-458): `total_value / total_tons` when
`total_tons > 0`, else `0.0`. -/
def total_avg_price (rows : List PositionRow) : ℚ :=
  if 0 < total_tons rows then total_value rows / total_tons rows else 0

/-- `total_balance = edited_df['Balance Funds (USD)'].sum()` (line 460). -/
def total_balance (rows : List PositionRow) : ℚ :=
  (rows.map PositionRow.balanceFunds).sum

/-- `total_credit = edited_df['Open Position Limit (USD)'].sum()` (line 461). -/
def total_credit (rows : List PositionRow) : ℚ :=
  (rows.map PositionRow.openPositionLimit).sum

/-- `total_float = edited_df['Variable Margin (USD)'].sum()` (line 462). -/
def total_float (rows : List PositionRow) : ℚ :=
  (rows.map PositionRow.variableMargin).sum

/-- `total_margin = edited_df['Initial Margin (USD)'].sum()` (line 463). -/
def total_margin (rows : List PositionRow) : ℚ :=
  (rows.map PositionRow.initialMargin).sum

/-- `total_pnl = edited_df['Unrealized PnL (USD)'].sum()` (line 464). -/
def total_pnl (rows : List PositionRow) : ℚ :=
  (rows.map PositionRow.unrealizedPnL).sum

/-- The recomputed synthetic "Total" row (source lines 466-476). -/
def total_row (rows : List PositionRow) : PositionRow :=
  { account := "Total"
    tons := total_tons rows
    holdingPrice := total_avg_price rows
    balanceFunds := total_balance rows
    openPositionLimit := total_credit rows
    variableMargin := total_float rows
    initialMargin := total_margin rows
    unrealizedPnL := total_pnl rows }

/-- `current_funds_usd = total_balance + total_credit + total_float`
(source line 485). -/
def current_funds_usd (rows : List PositionRow) : ℚ :=
  total_balance rows + total_credit rows + total_float rows

/-- A total of zero tons over rows with nonnegative tonnage forces every row's
tonnage, hence the summed position value, to zero. -/
lemma total_value_eq_zero_of_total_tons_eq_zero (rows : List PositionRow)
    (hn : ∀ row ∈ rows, 0 ≤ row.tons) (h0 : total_tons rows = 0) :
    total_value rows = 0 := by
  induction rows with
  | nil => rfl
  | cons r t ih =>
    have hr : 0 ≤ r.tons := hn r (List.mem_cons_self r t)
    have ht : ∀ row ∈ t, 0 ≤ row.tons := fun row hrow =>
      hn row (List.mem_cons_of_mem r hrow)
    have hsplit : r.tons + total_tons t = 0 := by
      simpa [total_tons] using h0
    have htt : 0 ≤ total_tons t :=
      List.sum_nonneg fun x hx => by
        obtain ⟨row, hrow, hxe⟩ := List.mem_map.mp hx
        exact hxe ▸ ht row hrow
    have hr0 : r.tons = 0 := le_antisymm (by linarith) hr
    have ht0 : total_tons t = 0 := by linarith
    have hvt : total_value t = 0 := ih ht ht0
    have hcons : total_value (r :: t) = r.tons * r.holdingPrice + total_value t := by
      simp [total_value]
    rw [hcons, hr0, hvt]
    ring

/-- Rows with nonnegative tonnage sum to a nonnegative total. -/
lemma total_tons_nonneg (rows : List PositionRow)
    (hn : ∀ row ∈ rows, 0 ≤ row.tons) : 0 ≤ total_tons rows :=
  List.sum_nonneg fun x hx => by
    obtain ⟨row, hrow, hxe⟩ := List.mem_map.mp hx
    exact hxe ▸ hn row hrow

/-- C5: the aggregation computes `weighted_avg_price` by the guarded division
of the specification; the product identity
`weighted_avg_price * total_tons = Σ tons_i * price_i` holds for every row
set (rows carry nonnegative tonnage, per the data model); and the empty row
set yields `total_tons = 0` and `weighted_avg_price = 0` with no division. -/
theorem C5_weighted_average (rows : List PositionRow)
    (hn : ∀ row ∈ rows, 0 ≤ row.tons) :
    (0 < total_tons rows →
        total_avg_price rows = total_value rows / total_tons rows) ∧
      (total_tons rows = 0 → total_avg_price rows = 0) ∧
      total_avg_price rows * total_tons rows = total_value rows ∧
      (total_tons ([] : List PositionRow) = 0 ∧
        total_avg_price ([] : List PositionRow) = 0) := by
  refine ⟨fun hpos => by rw [total_avg_price, if_pos hpos], ?_, ?_, rfl, by decide⟩
  · intro h0
    rw [total_avg_price, if_neg (by rw [h0]; exact lt_irrefl 0)]
  · by_cases hpos : 0 < total_tons rows
    · rw [total_avg_price, if_pos hpos, div_mul_cancel₀ _ (ne_of_gt hpos)]
    · have h0 : total_tons rows = 0 :=
        le_antisymm (not_lt.mp hpos) (total_tons_nonneg rows hn)
      rw [total_avg_price, if_neg hpos,
        total_value_eq_zero_of_total_tons_eq_zero rows hn h0]
      ring

/-- A concrete two-row position table, used as a witness input. -/
def sampleRows : List PositionRow :=
  [{ account := "A", tons := 100, holdingPrice := 9000, balanceFunds := 1000,
     openPositionLimit := 2000, variableMargin := 300, initialMargin := 400,
     unrealizedPnL := 50 },
   { account := "B", tons := 50, holdingPrice := 9200, balanceFunds := 500,
     openPositionLimit := 1000, variableMargin := 100, initialMargin := 200,
     unrealizedPnL := -20 }]

/-- Witness for C5 at a concrete two-row table. -/
theorem C5_weighted_average_witness :
    (∀ row ∈ sampleRows, 0 ≤ row.tons) ∧
      ((0 < total_tons sampleRows →
          total_avg_price sampleRows = total_value sampleRows / total_tons sampleRows) ∧
        (total_tons sampleRows = 0 → total_avg_price sampleRows = 0) ∧
        total_avg_price sampleRows * total_tons sampleRows = total_value sampleRows ∧
        (total_tons ([] : List PositionRow) = 0 ∧
          total_avg_price ([] : List PositionRow) = 0)) :=
  ⟨by decide, C5_weighted_average sampleRows (by decide)⟩

/-- C6: after recomputation from the constituent rows, the synthetic "Total"
row equals the field-wise sum of the rows in every summed field, its holding
price is the tons-weighted average of their holding prices (zero when the
total tonnage is not positive), and the derived total funds equal
`Σ balance + Σ credit limit + Σ variable margin`. -/
theorem C6_total_row_recomputed (rows : List PositionRow) :
    (total_row rows).tons = (rows.map PositionRow.tons).sum ∧
      (total_row rows).holdingPrice
        = (if 0 < (rows.map PositionRow.tons).sum
            then (rows.map fun row => row.tons * row.holdingPrice).sum
                / (rows.map PositionRow.tons).sum
            else 0) ∧
      (total_row rows).balanceFunds = (rows.map PositionRow.balanceFunds).sum ∧
      (total_row rows).openPositionLimit = (rows.map PositionRow.openPositionLimit).sum ∧
      (total_row rows).variableMargin = (rows.map PositionRow.variableMargin).sum ∧
      (total_row rows).initialMargin = (rows.map PositionRow.initialMargin).sum ∧
      (total_row rows).unrealizedPnL = (rows.map PositionRow.unrealizedPnL).sum ∧
      current_funds_usd rows
        = (rows.map PositionRow.balanceFunds).sum
            + (rows.map PositionRow.openPositionLimit).sum
            + (rows.map PositionRow.variableMargin).sum :=
  ⟨rfl, rfl, rfl, rfl, rfl, rfl, rfl, rfl⟩

/-! ### Funding plan (tab5 "Calculate Plan", source lines 860-901) -/

/-- Output record of the tab5 "Calculate Plan" computation. -/
structure PlanResult where
  new_total_tons : ℚ
  new_avg_price : ℚ
  new_margin_usd : ℚ
  estimated_pnl_usd : ℚ
  required_funds_usd : ℚ
  remaining_funds_usd : ℚ

/-- The "Calculate Plan" computation (source lines 862-885), with the
source's intermediate variables as `let`s. -/
def calculate_plan (position_size_tons avg_holding_price current_funds_usd
    target_price additional_tons lme_tons_per_lot lme_margin_per_lot_usd : ℚ) :
    PlanResult :=
  let new_total_tons := position_size_tons + additional_tons
  let new_avg_price :=
    if 0 < new_total_tons then
      ((position_size_tons * avg_holding_price) + (additional_tons * target_price))
        / new_total_tons
    else avg_holding_price
  let new_total_lots := new_total_tons / lme_tons_per_lot
  let new_margin_usd := new_total_lots * lme_margin_per_lot_usd
  let estimated_pnl_per_ton := target_price - new_avg_price
  let estimated_pnl_usd := estimated_pnl_per_ton * new_total_tons
  let required_funds_usd := new_margin_usd - estimated_pnl_usd
  let remaining_funds_usd := current_funds_usd - new_margin_usd - estimated_pnl_usd
  { new_total_tons := new_total_tons
    new_avg_price := new_avg_price
    new_margin_usd := new_margin_usd
    estimated_pnl_usd := estimated_pnl_usd
    required_funds_usd := required_funds_usd
    remaining_funds_usd := remaining_funds_usd }

/-- C7: the funding plan computes exactly the specified formulas: total tons
add, the tons-weighted blended average price with fallback to the current
average when the new total is zero, margin from lots, estimated PnL against
the target, and the two funds figures. -/
theorem C7_funding_plan_formulas
    (position_size_tons avg_holding_price current_funds_usd target_price
      additional_tons lme_tons_per_lot lme_margin_per_lot_usd : ℚ)
    (htons : 0 ≤ position_size_tons) (hadd : 0 ≤ additional_tons)
    (hlot : 0 < lme_tons_per_lot) :
    (calculate_plan position_size_tons avg_holding_price current_funds_usd
        target_price additional_tons lme_tons_per_lot lme_margin_per_lot_usd).new_total_tons
        = position_size_tons + additional_tons ∧
      (calculate_plan position_size_tons avg_holding_price current_funds_usd
        target_price additional_tons lme_tons_per_lot lme_margin_per_lot_usd).new_avg_price
        = (if position_size_tons + additional_tons = 0 then avg_holding_price
           else (position_size_tons * avg_holding_price + additional_tons * target_price)
              / (position_size_tons + additional_tons)) ∧
      (calculate_plan position_size_tons avg_holding_price current_funds_usd
        target_price additional_tons lme_tons_per_lot lme_margin_per_lot_usd).new_margin_usd
        = ((position_size_tons + additional_tons) / lme_tons_per_lot)
            * lme_margin_per_lot_usd ∧
      (calculate_plan position_size_tons avg_holding_price current_funds_usd
        target_price additional_tons lme_tons_per_lot lme_margin_per_lot_usd).estimated_pnl_usd
        = (target_price
            - (calculate_plan position_size_tons avg_holding_price current_funds_usd
                target_price additional_tons lme_tons_per_lot
                lme_margin_per_lot_usd).new_avg_price)
            * (position_size_tons + additional_tons) ∧
      (calculate_plan position_size_tons avg_holding_price current_funds_usd
        target_price additional_tons lme_tons_per_lot lme_margin_per_lot_usd).required_funds_usd
        = (calculate_plan position_size_tons avg_holding_price current_funds_usd
            target_price additional_tons lme_tons_per_lot
            lme_margin_per_lot_usd).new_margin_usd
          - (calculate_plan position_size_tons avg_holding_price current_funds_usd
              target_price additional_tons lme_tons_per_lot
              lme_margin_per_lot_usd).estimated_pnl_usd ∧
      (calculate_plan position_size_tons avg_holding_price current_funds_usd
        target_price additional_tons lme_tons_per_lot lme_margin_per_lot_usd).remaining_funds_usd
        = current_funds_usd
          - (calculate_plan position_size_tons avg_holding_price current_funds_usd
              target_price additional_tons lme_tons_per_lot
              lme_margin_per_lot_usd).new_margin_usd
          - (calculate_plan position_size_tons avg_holding_price current_funds_usd
              target_price additional_tons lme_tons_per_lot
              lme_margin_per_lot_usd).estimated_pnl_usd := by
  refine ⟨rfl, ?_, rfl, rfl, rfl, rfl⟩
  show (if 0 < position_size_tons + additional_tons then
        ((position_size_tons * avg_holding_price) + (additional_tons * target_price))
          / (position_size_tons + additional_tons)
      else avg_holding_price)
    = if position_size_tons + additional_tons = 0 then avg_holding_price
      else (position_size_tons * avg_holding_price + additional_tons * target_price)
          / (position_size_tons + additional_tons)
  by_cases hz : position_size_tons + additional_tons = 0
  · rw [if_pos hz, if_neg (by rw [hz]; exact lt_irrefl 0)]
  · have hpos : 0 < position_size_tons + additional_tons :=
      lt_of_le_of_ne (by linarith) (Ne.symm hz)
    rw [if_pos hpos, if_neg hz]

/-- Witness for C7 at the spec's worked example (9500 tons held, 500 added at
a 10130 target, 25 tons per lot, 20000 USD margin per lot). -/
theorem C7_funding_plan_formulas_witness :
    ((0 : ℚ) ≤ 9500) ∧ ((0 : ℚ) ≤ 500) ∧ ((0 : ℚ) < 25) ∧
      ((calculate_plan 9500 9885 8000000 10130 500 25 20000).new_total_tons
          = 9500 + 500 ∧
        (calculate_plan 9500 9885 8000000 10130 500 25 20000).new_avg_price
          = (if (9500 : ℚ) + 500 = 0 then 9885
             else ((9500 : ℚ) * 9885 + 500 * 10130) / (9500 + 500)) ∧
        (calculate_plan 9500 9885 8000000 10130 500 25 20000).new_margin_usd
          = (((9500 : ℚ) + 500) / 25) * 20000 ∧
        (calculate_plan 9500 9885 8000000 10130 500 25 20000).estimated_pnl_usd
          = ((10130 : ℚ)
              - (calculate_plan 9500 9885 8000000 10130 500 25 20000).new_avg_price)
              * (9500 + 500) ∧
        (calculate_plan 9500 9885 8000000 10130 500 25 20000).required_funds_usd
          = (calculate_plan 9500 9885 8000000 10130 500 25 20000).new_margin_usd
            - (calculate_plan 9500 9885 8000000 10130 500 25 20000).estimated_pnl_usd ∧
        (calculate_plan 9500 9885 8000000 10130 500 25 20000).remaining_funds_usd
          = 8000000
            - (calculate_plan 9500 9885 8000000 10130 500 25 20000).new_margin_usd
            - (calculate_plan 9500 9885 8000000 10130 500 25 20000).estimated_pnl_usd) :=
  ⟨by norm_num, by norm_num, by norm_num,
   C7_funding_plan_formulas 9500 9885 8000000 10130 500 25 20000
     (by norm_num) (by norm_num) (by norm_num)⟩

/-! ### Feasibility check (tab5, source lines 888-901) -/

/-- Message appended when required funds exceed the funding limit (line 894). -/
def limit_exceeded_msg : String := "❌ Required funds exceed the funding limit."

/-- Message appended when the plan leaves negative available funds (line 898). -/
def negative_funds_msg : String := "❌ Plan would result in negative available funds."

/-- The feasibility check (source lines 888-901): `is_feasible` starts `true`;
`required_funds_usd > funding_limit_usd` sets it `false` and appends its
message, then `remaining_funds_usd < 0` independently does the same.
Returns `(is_feasible, messages)`. -/
def feasibility_check (required_funds_usd funding_limit_usd remaining_funds_usd : ℚ) :
    Bool × List String :=
  let step1 : Bool × List String :=
    if funding_limit_usd < required_funds_usd then (false, [limit_exceeded_msg])
    else (true, [])
  if remaining_funds_usd < 0 then (false, step1.2 ++ [negative_funds_msg])
  else step1

/-- C8: the plan is feasible iff `required ≤ limit` and `remaining ≥ 0`; each
failed condition is independently reported by its own message; exceeding the
limit forces infeasibility regardless of the other condition; and the
negative-funds condition is strict: `remaining = 0` is not flagged while
`remaining = -1` is. -/
theorem C8_feasibility_conditions
    (required_funds_usd funding_limit_usd remaining_funds_usd : ℚ) :
    ((feasibility_check required_funds_usd funding_limit_usd remaining_funds_usd).1 = true
        ↔ (required_funds_usd ≤ funding_limit_usd ∧ 0 ≤ remaining_funds_usd)) ∧
      (funding_limit_usd < required_funds_usd →
        (feasibility_check required_funds_usd funding_limit_usd
          remaining_funds_usd).1 = false) ∧
      (limit_exceeded_msg
          ∈ (feasibility_check required_funds_usd funding_limit_usd
              remaining_funds_usd).2
        ↔ funding_limit_usd < required_funds_usd) ∧
      (negative_funds_msg
          ∈ (feasibility_check required_funds_usd funding_limit_usd
              remaining_funds_usd).2
        ↔ remaining_funds_usd < 0) ∧
      (remaining_funds_usd = 0 →
        negative_funds_msg
          ∉ (feasibility_check required_funds_usd funding_limit_usd
              remaining_funds_usd).2) ∧
      (remaining_funds_usd = -1 →
        (feasibility_check required_funds_usd funding_limit_usd
            remaining_funds_usd).1 = false ∧
          negative_funds_msg
            ∈ (feasibility_check required_funds_usd funding_limit_usd
                remaining_funds_usd).2) := by
  have hne : limit_exceeded_msg ≠ negative_funds_msg := by decide
  have key : (feasibility_check required_funds_usd funding_limit_usd
      remaining_funds_usd).1 = true
      ↔ (required_funds_usd ≤ funding_limit_usd ∧ 0 ≤ remaining_funds_usd) := by
    unfold feasibility_check
    by_cases h1 : funding_limit_usd < required_funds_usd
    · by_cases h2 : remaining_funds_usd < 0
      · simp [h1, h2, not_le.mpr h1]
      · simp [h1, h2, not_le.mpr h1]
    · by_cases h2 : remaining_funds_usd < 0
      · simp [h1, h2, not_le.mpr h2]
      · simp [h1, h2, not_lt.mp h1, not_lt.mp h2]
  have hm1 : limit_exceeded_msg
      ∈ (feasibility_check required_funds_usd funding_limit_usd
          remaining_funds_usd).2
      ↔ funding_limit_usd < required_funds_usd := by
    unfold feasibility_check
    by_cases h1 : funding_limit_usd < required_funds_usd <;>
      by_cases h2 : remaining_funds_usd < 0 <;>
        simp [h1, h2, hne]
  have hm2 : negative_funds_msg
      ∈ (feasibility_check required_funds_usd funding_limit_usd
          remaining_funds_usd).2
      ↔ remaining_funds_usd < 0 := by
    unfold feasibility_check
    by_cases h1 : funding_limit_usd < required_funds_usd <;>
      by_cases h2 : remaining_funds_usd < 0 <;>
        simp [h1, h2, hne.symm]
  refine ⟨key, ?_, hm1, hm2, ?_, ?_⟩
  · intro h1
    refine Bool.eq_false_iff.mpr fun ht => ?_
    exact absurd (key.mp ht).1 (not_le.mpr h1)
  · intro h0 hmem
    have := hm2.mp hmem
    rw [h0] at this
    exact lt_irrefl 0 this
  · intro hneg
    refine ⟨Bool.eq_false_iff.mpr fun ht => ?_, hm2.mpr (by rw [hneg]; norm_num)⟩
    have := (key.mp ht).2
    rw [hneg] at this
    linarith

/-- Witness for C8 at the concrete boundary inputs: `remaining = -1` is
flagged and infeasible; `remaining = 0` is not flagged. -/
theorem C8_feasibility_conditions_witness :
    ((feasibility_check 5 3 (-1)).1 = false ∧
        negative_funds_msg ∈ (feasibility_check 5 3 (-1)).2) ∧
      negative_funds_msg ∉ (feasibility_check 5 3 0).2 :=
  ⟨⟨(C8_feasibility_conditions 5 3 (-1)).2.1 (by norm_num),
    ((C8_feasibility_conditions 5 3 (-1)).2.2.2.2.2 rfl).2⟩,
   (C8_feasibility_conditions 5 3 0).2.2.2.2.1 rfl⟩

end HedgeDashboard
